import Mathlib

/-!
Verification development for the AI Resume Architect application
(src/application/app.py).  The Python source is shallowly embedded:
strings are lists of characters, the language-model backend and the
document store are explicit parameters, exceptions are `Except` /
`Option` values, and Streamlit messages (`st.error`, `st.warning`)
are collected in explicit message lists.
-/

namespace ResumeSpec

/-- Python strings are modelled as lists of characters. -/
abbrev Str := List Char

/-- Coerce a Lean string literal into the character-list model. -/
def lit (s : String) : Str := s.data

/-- JSON values as produced by Python's `json.loads`.  Numbers keep their
decimal form: sign, integer part, fraction digits and exponent. -/
inductive Json where
  | null : Json
  | bool (b : Bool) : Json
  | num (neg : Bool) (ip : Nat) (frac : List Nat) (ex : Int) : Json
  | str (s : Str) : Json
  | arr (elems : List Json) : Json
  | obj (fields : List (Str × Json)) : Json

/-- Shorthand for a non-negative integer JSON number. -/
def numJ (n : Nat) : Json := Json.num false n [] 0

/-- Key lookup in a JSON object's field list. -/
def lookupKV : List (Str × Json) → Str → Option Json
  | [], _ => none
  | (k, v) :: t, key => if k = key then some v else lookupKV t key

/-- Python-dict insertion: overwrite the value of an existing key in place,
otherwise append the new binding at the end (`json.loads` keeps the first
position of a duplicate key and its last value). -/
def insertKV : List (Str × Json) → Str → Json → List (Str × Json)
  | [], k, v => [(k, v)]
  | (k', v') :: t, k, v =>
    if k' = k then (k', v) :: t else (k', v') :: insertKV t k v

/-- Python's `dict.get(key, default)` on a JSON object's field list. -/
def dictGet (fields : List (Str × Json)) (key : Str) (dflt : Json) : Json :=
  match lookupKV fields key with
  | some v => v
  | none => dflt

/-- JSON whitespace. -/
def isWsChar (c : Char) : Bool :=
  c = ' ' || c = '\n' || c = '\t' || c = '\r'

/-- Drop leading JSON whitespace. -/
def skipWs : Str → Str
  | [] => []
  | c :: t => if isWsChar c then skipWs t else c :: t

/-- Longest prefix of decimal digits, as digit values, plus the rest. -/
def parseDigits : Str → (List Nat × Str)
  | [] => ([], [])
  | c :: t =>
    if c.isDigit then
      let p := parseDigits t
      ((c.toNat - 48) :: p.1, p.2)
    else ([], c :: t)

/-- Digit values to the natural number they denote. -/
def digitsToNat (ds : List Nat) : Nat := ds.foldl (fun a d => a * 10 + d) 0

/-- Value of one hexadecimal digit. -/
def hexVal (c : Char) : Option Nat :=
  if '0' ≤ c ∧ c ≤ '9' then some (c.toNat - 48)
  else if 'a' ≤ c ∧ c ≤ 'f' then some (c.toNat - 87)
  else if 'A' ≤ c ∧ c ≤ 'F' then some (c.toNat - 55)
  else none

/-- JSON single-character escapes. -/
def escChar (e : Char) : Option Char :=
  if e = '"' then some '"'
  else if e = '\\' then some '\\'
  else if e = '/' then some '/'
  else if e = 'n' then some '\n'
  else if e = 't' then some '\t'
  else if e = 'r' then some '\r'
  else if e = 'b' then some (Char.ofNat 8)
  else if e = 'f' then some (Char.ofNat 12)
  else none

/-- Body of a JSON string after the opening quote: returns the decoded
characters and the input following the closing quote. -/
def parseStrBody : Str → Option (Str × Str)
  | [] => none
  | '"' :: r => some ([], r)
  | '\\' :: 'u' :: a :: b :: c :: d :: r =>
    match hexVal a, hexVal b, hexVal c, hexVal d, parseStrBody r with
    | some ha, some hb, some hc, some hd, some (s, rest) =>
      some (Char.ofNat (((ha * 16 + hb) * 16 + hc) * 16 + hd) :: s, rest)
    | _, _, _, _, _ => none
  | '\\' :: e :: r =>
    match escChar e, parseStrBody r with
    | some c, some (s, rest) => some (c :: s, rest)
    | _, _ => none
  | c :: r =>
    match parseStrBody r with
    | some (s, rest) => some (c :: s, rest)
    | none => none

/-- Exponent digits of a JSON number (after `e`/`E`). -/
def parseExpDigits (neg : Bool) (ds fs : List Nat) (r : Str) :
    Option (Json × Str) :=
  let p : Bool × Str :=
    match r with
    | '-' :: t => (true, t)
    | '+' :: t => (false, t)
    | _ => (false, r)
  match parseDigits p.2 with
  | ([], _) => none
  | (es, r2) =>
    let e : Int := Int.ofNat (digitsToNat es)
    some (Json.num neg (digitsToNat ds) fs (if p.1 then -e else e), r2)

/-- Optional exponent part of a JSON number. -/
def parseExpPart (neg : Bool) (ds fs : List Nat) (r : Str) :
    Option (Json × Str) :=
  match r with
  | 'e' :: r1 => parseExpDigits neg ds fs r1
  | 'E' :: r1 => parseExpDigits neg ds fs r1
  | _ => some (Json.num neg (digitsToNat ds) fs 0, r)

/-- A JSON number: optional minus, integer digits, optional fraction,
optional exponent. -/
def parseNum (s : Str) : Option (Json × Str) :=
  let p : Bool × Str :=
    match s with
    | '-' :: t => (true, t)
    | _ => (false, s)
  match parseDigits p.2 with
  | ([], _) => none
  | (ds, r1) =>
    match r1 with
    | '.' :: r2 =>
      match parseDigits r2 with
      | ([], _) => none
      | (fs, r3) => parseExpPart p.1 ds fs r3
    | _ => parseExpPart p.1 ds [] r1

mutual

/-- Fuelled recursive-descent JSON value parser. -/
def parseVal : Nat → Str → Option (Json × Str)
  | 0, _ => none
  | Nat.succ fuel, s =>
    match skipWs s with
    | 'n' :: 'u' :: 'l' :: 'l' :: r => some (Json.null, r)
    | 't' :: 'r' :: 'u' :: 'e' :: r => some (Json.bool true, r)
    | 'f' :: 'a' :: 'l' :: 's' :: 'e' :: r => some (Json.bool false, r)
    | '"' :: r =>
      match parseStrBody r with
      | some (cs, rest) => some (Json.str cs, rest)
      | none => none
    | '[' :: r =>
      match skipWs r with
      | ']' :: r2 => some (Json.arr [], r2)
      | r2 => parseArrItems fuel r2 []
    | '{' :: r =>
      match skipWs r with
      | '}' :: r2 => some (Json.obj [], r2)
      | r2 => parseObjItems fuel r2 []
    | c :: r => if c = '-' ∨ c.isDigit then parseNum (c :: r) else none
    | [] => none

/-- Items of a JSON array after the opening bracket. -/
def parseArrItems : Nat → Str → List Json → Option (Json × Str)
  | 0, _, _ => none
  | Nat.succ fuel, s, acc =>
    match parseVal fuel s with
    | none => none
    | some (v, r) =>
      match skipWs r with
      | ',' :: r2 => parseArrItems fuel r2 (acc ++ [v])
      | ']' :: r2 => some (Json.arr (acc ++ [v]), r2)
      | _ => none

/-- Members of a JSON object after the opening brace. -/
def parseObjItems : Nat → Str → List (Str × Json) → Option (Json × Str)
  | 0, _, _ => none
  | Nat.succ fuel, s, acc =>
    match skipWs s with
    | '"' :: r =>
      match parseStrBody r with
      | none => none
      | some (k, r1) =>
        match skipWs r1 with
        | ':' :: r2 =>
          match parseVal fuel r2 with
          | none => none
          | some (v, r3) =>
            match skipWs r3 with
            | ',' :: r4 => parseObjItems fuel r4 (insertKV acc k v)
            | '}' :: r4 => some (Json.obj (insertKV acc k v), r4)
            | _ => none
        | _ => none
    | _ => none

end

/-- Python's `json.loads`: parse a whole string as one JSON document;
trailing non-whitespace is an error.  The fuel `s.length + 1` is enough
for every well-formed document (each recursive step consumes input). -/
def parseJson (s : Str) : Option Json :=
  match parseVal (s.length + 1) s with
  | some (j, r) => if skipWs r = [] then some j else none
  | none => none

/-- Fuelled scanner for `str.replace`; the fuel bounds the number of
characters still to be inspected (each step consumes at least one, so
fuel equal to the input length is always enough). -/
def replaceSubGo (pat repl : Str) : Nat → Str → Str
  | 0, s => s
  | Nat.succ _, [] => []
  | Nat.succ fuel, c :: t =>
    if pat ≠ [] ∧ pat.isPrefixOf (c :: t) then
      repl ++ replaceSubGo pat repl fuel ((c :: t).drop pat.length)
    else
      c :: replaceSubGo pat repl fuel t

/-- Python's `str.replace`: replace every non-overlapping occurrence of
`pat` (left to right) by `repl`. -/
def replaceSub (pat repl s : Str) : Str := replaceSubGo pat repl s.length s

/-- Python's `in` operator on strings: substring test. -/
def containsSub (needle : Str) : Str → Bool
  | [] => needle.isEmpty
  | c :: t => needle.isPrefixOf (c :: t) || containsSub needle t

/-- ASCII lower-casing of one character (what `str.lower` does on the
ASCII fragment relevant to the timeout test). -/
def toLowerChar (c : Char) : Char :=
  if 'A' ≤ c ∧ c ≤ 'Z' then Char.ofNat (c.toNat + 32) else c

/-- ASCII lower-casing of a string. -/
def toLowerStr (s : Str) : Str := s.map toLowerChar

/-- `app.py` line 160: strip markdown code fences from the model reply,
`response.text.replace("```json", "").replace("```", "")`. -/
def cleanResp (t : Str) : Str :=
  replaceSub (lit "```") [] (replaceSub (lit "```json") [] t)

/-! ### Base64 (Python `base64.b64encode` / `b64decode`)

Bytes are naturals below 256; the encoded string is its list of ASCII
codes (`=` is 61). -/

/-- The standard base64 alphabet, as ASCII codes. -/
def b64Alphabet : List Nat :=
  [65, 66, 67, 68, 69, 70, 71, 72, 73, 74, 75, 76, 77, 78, 79, 80, 81,
   82, 83, 84, 85, 86, 87, 88, 89, 90,
   97, 98, 99, 100, 101, 102, 103, 104, 105, 106, 107, 108, 109, 110,
   111, 112, 113, 114, 115, 116, 117, 118, 119, 120, 121, 122,
   48, 49, 50, 51, 52, 53, 54, 55, 56, 57, 43, 47]

/-- ASCII code of the base64 digit for a sextet. -/
def sextetToAscii (s : Nat) : Nat := b64Alphabet.getD s 61

/-- Sextet value of a base64 ASCII code, if it is in the alphabet. -/
def asciiToSextet (c : Nat) : Option Nat :=
  b64Alphabet.findIdx? (fun x => x = c)

/-- `base64.b64encode` on a byte list: 3 bytes become 4 digits, a final
group of 2 or 1 bytes is padded with one or two `=`. -/
def b64encode : List Nat → List Nat
  | a :: b :: c :: rest =>
    sextetToAscii (a / 4) ::
    sextetToAscii ((a % 4) * 16 + b / 16) ::
    sextetToAscii ((b % 16) * 4 + c / 64) ::
    sextetToAscii (c % 64) :: b64encode rest
  | [a, b] =>
    [sextetToAscii (a / 4), sextetToAscii ((a % 4) * 16 + b / 16),
     sextetToAscii ((b % 16) * 4), 61]
  | [a] =>
    [sextetToAscii (a / 4), sextetToAscii ((a % 4) * 16), 61, 61]
  | [] => []

/-- `base64.b64decode`: groups of four base64 digits back to bytes,
honouring `=` padding; `none` on malformed input. -/
def b64decode : List Nat → Option (List Nat)
  | c0 :: c1 :: c2 :: c3 :: rest =>
    match asciiToSextet c0, asciiToSextet c1 with
    | some s0, some s1 =>
      if c2 = 61 then
        if c3 = 61 ∧ rest = [] then some [s0 * 4 + s1 / 16] else none
      else
        match asciiToSextet c2 with
        | some s2 =>
          if c3 = 61 then
            if rest = [] then
              some [s0 * 4 + s1 / 16, (s1 % 16) * 16 + s2 / 4]
            else none
          else
            match asciiToSextet c3, b64decode rest with
            | some s3, some bs =>
              some ((s0 * 4 + s1 / 16) :: ((s1 % 16) * 16 + s2 / 4) ::
                    ((s2 % 4) * 64 + s3) :: bs)
            | _, _ => none
        | none => none
    | _, _ => none
  | [] => some []
  | _ => none

/-- `file_to_base64` (app.py lines 121-127): the uploaded file's bytes
encoded for storage. -/
def file_to_base64 (fileBytes : List Nat) : List Nat := b64encode fileBytes

/-- `base64_to_bytes` (app.py lines 129-131): decode the stored blob for
download. -/
def base64_to_bytes (s : List Nat) : Option (List Nat) := b64decode s

/-! ### AI services (app.py lines 135-201)

The Gemini backend is a parameter: `none` models a missing
`GOOGLE_API_KEY` (so `get_gemini_model` returns `None` after showing an
error), `some f` models a configured model whose `generate_content`
returns `f prompt` — `Except.error` being a raised exception.  Each
service returns its value together with the list of `st.error` messages
it displayed. -/

/-- The `st.error` text shown by `get_gemini_model` when the key is
missing (app.py line 142). -/
def keyErrMsg : Str := lit "Google API Key not found in secrets."

/-- The evaluation prompt of `analyze_resume` (lines 149-156), with the
source's truncation `text[:10000]` and `jd[:5000]`. -/
def analyzePrompt (text jd : Str) : Str :=
  lit "\n    Act as a strict ATS. Compare the Resume against the Job Description.\n    Output a raw JSON object with these keys: \"match_score\" (number 0-100), \"missing_keywords\" (list of strings), \"tips\" (list of strings).\n    Do not output markdown code blocks. Just the JSON.\n    \n    RESUME: " ++
  text.take 10000 ++ lit "\n    JD: " ++ jd.take 5000 ++ lit "\n    "

/-- The degraded result of `analyze_resume` when `get_gemini_model`
returned `None` (line 147). -/
def noKeyFields : List (Str × Json) :=
  [(lit "match_score", numJ 0), (lit "tips", Json.arr [])]

/-- The degraded result of `analyze_resume` on any exception
(line 164). -/
def errFields : List (Str × Json) :=
  [(lit "match_score", numJ 0),
   (lit "tips", Json.arr [Json.str (lit "Error analyzing resume")])]

/-- `analyze_resume` (app.py lines 145-164).  Returns the value of
`json.loads` applied to the fence-stripped reply — whatever JSON value
that is — or the degraded dictionaries on a missing key, a backend
exception, or a parse failure. -/
def analyze_resume (backend : Option (Str → Except Str Str))
    (text jd : Str) : Json × List Str :=
  match backend with
  | none => (Json.obj noKeyFields, [keyErrMsg])
  | some f =>
    match f (analyzePrompt text jd) with
    | Except.error e =>
      (Json.obj errFields, [lit "Analysis Error: " ++ e])
    | Except.ok t =>
      match parseJson (cleanResp t) with
      | some j => (j, [])
      | none =>
        (Json.obj errFields, [lit "Analysis Error: JSONDecodeError"])

/-- The rewriting prompt of `optimize_resume` (lines 170-178). -/
def optPrompt (text jd : Str) : Str :=
  lit "\n    Rewrite this resume to get a 95% match score against the JD.\n    Use \"Keyword Mirroring\" (use exact phrasing from JD).\n    Keep actual companies/dates but rewrite bullets to focus on results.\n    Return clean Markdown.\n    \n    RESUME: " ++
  text ++ lit "\n    JD: " ++ jd ++ lit "\n    "

/-- `optimize_resume` (app.py lines 166-180).  With no model it returns
the empty string (after the key error message); with a model, the
backend call is NOT wrapped in try/except, so an exception propagates
(`Except.error`). -/
def optimize_resume (backend : Option (Str → Except Str Str))
    (text jd : Str) : Except Str Str × List Str :=
  match backend with
  | none => (Except.ok [], [keyErrMsg])
  | some f => (f (optPrompt text jd), [])

/-- The `length_prompt` dictionary of `generate_cover_letter`
(lines 186-190). -/
def length_prompt : List (Str × Str) :=
  [(lit "Condensed", lit "Keep it under 200 words. Punchy and direct."),
   (lit "Medium",
    lit "Standard professional length (300 words). Balanced."),
   (lit "Elaborate",
    lit "Detailed storytelling (450+ words). Deep dive into achievements.")]

/-- Python's `dict.get(key, default)` on a string-valued dictionary. -/
def dget : List (Str × Str) → Str → Str → Str
  | [], _, dflt => dflt
  | (k, v) :: t, key, dflt => if k = key then v else dget t key dflt

/-- The style text substituted into the cover-letter prompt:
`length_prompt.get(length_type, "Medium")` (line 194).  Note the
fallback is the literal string `"Medium"`, not the Medium directive. -/
def styleDirective (length_type : Str) : Str :=
  dget length_prompt length_type (lit "Medium")

/-- The cover-letter prompt (lines 192-199). -/
def clPrompt (text jd length_type : Str) : Str :=
  lit "\n    Write a cover letter based on this resume and JD.\n    Style: " ++
  styleDirective length_type ++
  lit "\n    Return clean Markdown.\n    \n    RESUME: " ++ text ++
  lit "\n    JD: " ++ jd ++ lit "\n    "

/-- `generate_cover_letter` (app.py lines 182-201); like
`optimize_resume`, exceptions from the backend are not caught. -/
def generate_cover_letter (backend : Option (Str → Except Str Str))
    (text jd length_type : Str) : Except Str Str × List Str :=
  match backend with
  | none => (Except.ok [], [keyErrMsg])
  | some f => (f (clPrompt text jd length_type), [])

/-! ### Transaction store (app.py lines 21-93)

The Astra collection is modelled as the list of documents it holds plus
two failure switches: `insertFail` (an exception message raised by
`insert_one`) and `findFail` (`find` raises).  `get_db_collection`'s
network behaviour is a function from attempt index to outcome. -/

/-- A document collection: stored documents, and whether `insert_one`
or `find` raise. -/
structure Collection (D : Type) where
  docs : List D
  insertFail : Option Str
  findFail : Bool

/-- Substring test of `"timeout" in str(e).lower()` (line 68). -/
def timeoutIn (e : Str) : Bool := containsSub (lit "timeout") (toLowerStr e)

/-- The retry loop of `get_db_collection` (lines 41-72): `i` is the
0-based attempt index, the second argument the remaining iterations of
`range(max_retries)`.  Each attempt's body (listing the collections and
getting or creating the target one) either succeeds or raises, per
`outs i`.  Returns the result, the number of attempts made, and the
`time.sleep` delays taken (line 69). -/
def dbAttemptLoop (outs : Nat → Except Str Unit) :
    Nat → Nat → Option Unit × Nat × List Nat
  | _, 0 => (none, 0, [])
  | i, Nat.succ rem =>
    match outs i with
    | Except.ok _ => (some (), 1, [])
    | Except.error e =>
      if timeoutIn e = true ∧ 0 < rem then
        let r := dbAttemptLoop outs (i + 1) rem
        (r.1, r.2.1 + 1, 3 :: r.2.2)
      else (none, 1, [])

/-- `get_db_collection` (lines 22-72): `none` when the Astra secrets are
missing (lines 29-33), otherwise up to `max_retries = 3` provisioning
attempts. -/
def get_db_collection (secretsOk : Bool) (outs : Nat → Except Str Unit) :
    Option Unit × Nat × List Nat :=
  if secretsOk then dbAttemptLoop outs 0 3 else (none, 0, [])

/-- `save_transaction_to_db` (lines 74-83): insert the data verbatim,
report success as a Boolean; an unavailable collection gives `False`
silently, an insert exception gives `False` with an `st.error`
message.  Returns (success, collection afterwards, messages). -/
def save_transaction_to_db {D : Type} (coll : Option (Collection D))
    (data : D) : Bool × Option (Collection D) × List Str :=
  match coll with
  | none => (false, none, [])
  | some c =>
    match c.insertFail with
    | some e => (false, some c, [lit "DB Save Error: " ++ e])
    | none =>
      (true, some { c with docs := c.docs ++ [data] }, [])

/-- The semantics of `collection.find({}, sort={"timestamp": -1},
limit=50)` (line 90): the stored documents ordered by the sort key
descending, truncated to the first 50. -/
def dbSortDesc {D : Type} (key : D → Nat) (l : List D) : List D :=
  List.insertionSort (fun a b => key b ≤ key a) l

/-- `fetch_transactions` (lines 85-93): empty list when the store is
unavailable or the query raises, else the 50 newest documents. -/
def fetch_transactions {D : Type} (key : D → Nat)
    (coll : Option (Collection D)) : List D :=
  match coll with
  | none => []
  | some c =>
    if c.findFail then []
    else (dbSortDesc key c.docs).take 50

/-! ### Pipeline orchestrator (`generator_page`, app.py lines 225-281)

One button press with a file and a job description already present.
`extractRes` is the outcome of `extract_text` (`none` = failure);
Python's `if not resume_text` also treats the empty string as failure.
`now` is `datetime.datetime.now().isoformat()`. -/

/-- What `st.session_state.generated` receives (lines 274-279). -/
structure GenResult where
  original_stats : Json
  new_stats : Json
  optimized_resume : Str
  cover_letter : Str

/-- The persisted transaction document (lines 256-269). -/
structure Tx where
  timestamp : Str
  job_title : Str
  job_description : Str
  original_filename : Str
  original_file_base64 : List Nat
  original_score : Json
  optimized_score : Json
  critical_keywords : Json
  improvements : Json
  original_resume_text : Str
  generated_resume : Str
  generated_cover_letter : Str

/-- The `transaction_data` dictionary literal (lines 256-269), with the
two analyses given as JSON object field lists (their `.get` calls
succeed exactly when the analyses are dictionaries). -/
def buildTransaction (now jd fn : Str) (fileBytes : List Nat)
    (origFields newFields : List (Str × Json)) (resumeText opt cl : Str) :
    Tx :=
  { timestamp := now
    job_title := (jd.takeWhile (fun c => c ≠ '\n')).take 50
    job_description := jd
    original_filename := fn
    original_file_base64 := file_to_base64 fileBytes
    original_score := dictGet origFields (lit "match_score") (numJ 0)
    optimized_score := dictGet newFields (lit "match_score") (numJ 0)
    critical_keywords :=
      dictGet newFields (lit "missing_keywords") (Json.arr [])
    improvements := dictGet origFields (lit "tips") (Json.arr [])
    original_resume_text := resumeText
    generated_resume := opt
    generated_cover_letter := cl }

/-- Outcome of one generation run: the session result (if reached), the
store afterwards, the messages displayed, and an uncaught exception if
one aborted the Streamlit script run. -/
structure RunResult where
  generated : Option GenResult
  store : Option (Collection Tx)
  msgs : List Str
  fatal : Option Str

/-- The generation pipeline inside `generator_page`'s button handler
(lines 230-281): extract, analyze original, optimize, cover letter,
analyze new, build and save the transaction, publish the session
result.  `optimize_resume` / `generate_cover_letter` exceptions
propagate uncaught (no try/except in `generator_page`); so does the
`AttributeError` from calling `.get` on a non-dict analysis value
(lines 262-265). -/
def pipelineRun (backend : Option (Str → Except Str Str))
    (extractRes : Option Str) (store : Option (Collection Tx))
    (fileBytes : List Nat) (fn jd clLength now : Str) : RunResult :=
  match extractRes with
  | none =>
    { generated := none, store := store, msgs := [], fatal := none }
  | some t =>
    if t = [] then
      { generated := none, store := store, msgs := [], fatal := none }
    else
      let oa := analyze_resume backend t jd
      match optimize_resume backend t jd with
      | (Except.error e, m2) =>
        { generated := none, store := store, msgs := oa.2 ++ m2,
          fatal := some e }
      | (Except.ok opt, m2) =>
        match generate_cover_letter backend t jd clLength with
        | (Except.error e, m3) =>
          { generated := none, store := store,
            msgs := oa.2 ++ m2 ++ m3, fatal := some e }
        | (Except.ok cl, m3) =>
          let na := analyze_resume backend opt jd
          match oa.1 with
          | Json.obj origFields =>
            match na.1 with
            | Json.obj newFields =>
              let tx := buildTransaction now jd fn fileBytes
                origFields newFields t opt cl
              let s := save_transaction_to_db store tx
              { generated := some
                  { original_stats := Json.obj origFields
                    new_stats := Json.obj newFields
                    optimized_resume := opt
                    cover_letter := cl }
                store := s.2.1
                msgs := oa.2 ++ m2 ++ m3 ++ na.2 ++ s.2.2
                fatal := none }
            | _ =>
              { generated := none, store := store,
                msgs := oa.2 ++ m2 ++ m3 ++ na.2,
                fatal := some (lit "AttributeError") }
          | _ =>
            { generated := none, store := store,
              msgs := oa.2 ++ m2 ++ m3 ++ na.2,
              fatal := some (lit "AttributeError") }

/-! ### Concrete example objects used by counterexamples and witnesses -/

/-- A backend that always answers with a well-formed score object. -/
def okBackend50 : Str → Except Str Str :=
  fun _ => Except.ok (lit "\x7b\"match_score\": 50\x7d")

/-- A backend whose reply contains an out-of-range score. -/
def okBackend150 : Str → Except Str Str :=
  fun _ => Except.ok (lit "\x7b\"match_score\": 150\x7d")

/-- A backend that raises on every call. -/
def boomBackend : Str → Except Str Str :=
  fun _ => Except.error (lit "boom")

/-- Provisioning outcomes: transient timeout on the first attempt, then
success. -/
def timeoutThenOk : Nat → Except Str Unit :=
  fun k => if k = 0 then Except.error (lit "Read Timeout") else Except.ok ()

/-- An empty, healthy transaction collection. -/
def emptyColl : Collection Tx := { docs := [], insertFail := none, findFail := false }

/-- Attempt `k` of `get_db_collection` failed with a transient-timeout
signature. -/
def timeoutErrAt (outs : Nat → Except Str Unit) (k : Nat) : Prop :=
  ∃ e, outs k = Except.error e ∧ timeoutIn e = true

/-! ## Theorems -/

/-- Helper: a sextet below 64 maps to an alphabet code that decodes back
to it and is never the padding code 61. -/
theorem sextet_roundtrip (s : Nat) (hs : s < 64) :
    asciiToSextet (sextetToAscii s) = some s ∧ sextetToAscii s ≠ 61 := by
  have h : ∀ t : Fin 64,
      asciiToSextet (sextetToAscii t.val) = some t.val ∧
      sextetToAscii t.val ≠ 61 := by decide
  exact h ⟨s, hs⟩

/-- Helper: decoding an encoded byte list recovers it exactly. -/
theorem b64decode_b64encode : ∀ (bs : List Nat), (∀ b ∈ bs, b < 256) →
    b64decode (b64encode bs) = some bs := by
  intro bs
  induction bs using b64encode.induct with
  | case1 a b c rest ih =>
    intro h
    have ha : a < 256 := h a (by simp)
    have hb : b < 256 := h b (by simp)
    have hc : c < 256 := h c (by simp)
    have h0 := sextet_roundtrip (a / 4) (by omega)
    have h1 := sextet_roundtrip ((a % 4) * 16 + b / 16) (by omega)
    have h2 := sextet_roundtrip ((b % 16) * 4 + c / 64) (by omega)
    have h3 := sextet_roundtrip (c % 64) (by omega)
    have hrest := ih (fun x hx => h x (by simp [hx]))
    have e1 : (a / 4) * 4 + ((a % 4) * 16 + b / 16) / 16 = a := by omega
    have e2 : (((a % 4) * 16 + b / 16) % 16) * 16 +
        ((b % 16) * 4 + c / 64) / 4 = b := by omega
    have e3 : (((b % 16) * 4 + c / 64) % 4) * 64 + c % 64 = c := by omega
    simp only [b64encode, b64decode, h0.1, h1.1, h2.1, h3.1,
      if_neg h2.2, if_neg h3.2, hrest, e1, e2, e3]
  | case2 a b =>
    intro h
    have ha : a < 256 := h a (by simp)
    have hb : b < 256 := h b (by simp)
    have h0 := sextet_roundtrip (a / 4) (by omega)
    have h1 := sextet_roundtrip ((a % 4) * 16 + b / 16) (by omega)
    have h2 := sextet_roundtrip ((b % 16) * 4) (by omega)
    have e1 : (a / 4) * 4 + ((a % 4) * 16 + b / 16) / 16 = a := by omega
    have e2 : (((a % 4) * 16 + b / 16) % 16) * 16 + ((b % 16) * 4) / 4 = b := by
      omega
    simp only [b64encode, b64decode, h0.1, h1.1, h2.1,
      if_neg h2.2, e1, e2]
    simp
  | case3 a =>
    intro h
    have ha : a < 256 := h a (by simp)
    have h0 := sextet_roundtrip (a / 4) (by omega)
    have h1 := sextet_roundtrip ((a % 4) * 16) (by omega)
    have e1 : (a / 4) * 4 + ((a % 4) * 16) / 16 = a := by omega
    simp only [b64encode, b64decode, h0.1, h1.1, e1]
    simp
  | case4 => intro h; rfl

/-- C9: encoding an uploaded file's bytes with `file_to_base64` and
decoding the stored representation with `base64_to_bytes` yields the
original bytes (decode after encode is the identity on byte lists). -/
theorem file_base64_roundtrip (bs : List Nat) (h : ∀ b ∈ bs, b < 256) :
    base64_to_bytes (file_to_base64 bs) = some bs :=
  b64decode_b64encode bs h

/-- C9 witness: the round trip evaluated on a concrete file. -/
theorem file_base64_roundtrip_witness :
    (∀ b ∈ [72, 101, 108, 108, 111, 33, 0], b < 256) ∧
    base64_to_bytes (file_to_base64 [72, 101, 108, 108, 111, 33, 0]) =
      some [72, 101, 108, 108, 111, 33, 0] :=
  ⟨by decide, file_base64_roundtrip [72, 101, 108, 108, 111, 33, 0] (by decide)⟩

/-- C2 counterexample: for the unrecognized preference `"short"`, the
text substituted into the cover-letter prompt is the literal string
`"Medium"` — the dictionary key — not the standard ≈300-word directive,
so the claim as stated is false. -/
theorem styleDirective_fallback_literal :
    styleDirective (lit "short") = lit "Medium" ∧
    lit "Medium" ≠
      lit "Standard professional length (300 words). Balanced." := by
  exact ⟨rfl, by decide⟩

/-- C2 amended: the three recognized length preferences select their
fixed directives, and any other preference value substitutes the
literal string `"Medium"` (the `dict.get` default at app.py line 194),
not the standard directive; the chosen text is spliced into the prompt
that `generate_cover_letter` sends to the backend. -/
theorem styleDirective_cases (length_type : Str) :
    styleDirective length_type =
      (if lit "Condensed" = length_type then
        lit "Keep it under 200 words. Punchy and direct."
      else if lit "Medium" = length_type then
        lit "Standard professional length (300 words). Balanced."
      else if lit "Elaborate" = length_type then
        lit "Detailed storytelling (450+ words). Deep dive into achievements."
      else lit "Medium") ∧
    (∀ (f : Str → Except Str Str) (text jd : Str),
      generate_cover_letter (some f) text jd length_type =
        (f (clPrompt text jd length_type), []) ∧
      clPrompt text jd length_type =
        lit "\n    Write a cover letter based on this resume and JD.\n    Style: " ++
        styleDirective length_type ++
        lit "\n    Return clean Markdown.\n    \n    RESUME: " ++ text ++
        lit "\n    JD: " ++ jd ++ lit "\n    ") := by
  exact ⟨rfl, fun f text jd => ⟨rfl, rfl⟩⟩

/-- C6 counterexample: `save_transaction_to_db` inserts the given
document verbatim and never stamps a missing timestamp.  Here the
document type is just the optional timestamp field: a timestamp-absent
document (`none`) is persisted still absent, refuting "stamps the
transaction with the current time if absent". -/
theorem save_does_not_stamp_timestamp :
    save_transaction_to_db
        (some { docs := [], insertFail := none, findFail := false } :
          Option (Collection (Option Nat))) none =
      (true,
       some { docs := [(none : Option Nat)], insertFail := none,
              findFail := false },
       []) := rfl

/-- C6 amended: `save_transaction_to_db` appends exactly one document —
the transaction exactly as passed, with no timestamp stamping (the
orchestrator stamps the timestamp before calling, app.py line 254) —
and reports failure as a `False` return value rather than throwing:
silently on an unavailable store, with one error message on an insert
exception. -/
theorem save_transaction_reports_failure {D : Type} (c : Collection D)
    (d : D) :
    save_transaction_to_db (none : Option (Collection D)) d =
      (false, none, []) ∧
    (c.insertFail = none →
      save_transaction_to_db (some c) d =
        (true, some { c with docs := c.docs ++ [d] }, [])) ∧
    (∀ e, c.insertFail = some e →
      save_transaction_to_db (some c) d =
        (false, some c, [lit "DB Save Error: " ++ e])) := by
  refine ⟨rfl, fun hni => ?_, fun e he => ?_⟩
  · simp [save_transaction_to_db, hni]
  · simp [save_transaction_to_db, he]

/-- C6 witness: the amended theorem applied to a concrete collection
and document. -/
theorem save_transaction_reports_failure_witness :
    save_transaction_to_db
        (some { docs := [], insertFail := none, findFail := false } :
          Option (Collection Nat)) 7 =
      (true,
       some { docs := [7], insertFail := none, findFail := false }, []) :=
  (save_transaction_reports_failure
    { docs := [], insertFail := none, findFail := false } 7).2.1 rfl

/-- C8: `fetch_transactions` returns at most 50 documents, ordered by
the timestamp key descending (newest first), and returns the empty list
when the store is unavailable or the query fails. -/
theorem fetch_transactions_bounded_sorted {D : Type} (key : D → Nat)
    (coll : Option (Collection D)) :
    (fetch_transactions key coll).length ≤ 50 ∧
    List.Sorted (fun a b => key b ≤ key a) (fetch_transactions key coll) ∧
    (coll = none → fetch_transactions key coll = []) ∧
    (∀ c, coll = some c → c.findFail = true →
      fetch_transactions key coll = []) := by
  have hsorted : ∀ (l : List D),
      List.Sorted (fun a b => key b ≤ key a) (dbSortDesc key l) := by
    intro l
    haveI : IsTotal D (fun a b => key b ≤ key a) :=
      ⟨fun a b => le_total (key b) (key a)⟩
    haveI : IsTrans D (fun a b => key b ≤ key a) :=
      ⟨fun _ _ _ hab hbc => le_trans hbc hab⟩
    exact List.sorted_insertionSort _ l
  match coll with
  | none =>
    exact ⟨by simp [fetch_transactions], by simp [fetch_transactions],
      fun _ => rfl, fun c hc => Option.noConfusion hc⟩
  | some c =>
    refine ⟨?_, ?_, fun hc => Option.noConfusion hc, ?_⟩
    · by_cases hff : c.findFail = true
      · simp [fetch_transactions, hff]
      · simp only [fetch_transactions, if_neg hff]
        exact List.length_take_le 50 _
    · by_cases hff : c.findFail = true
      · simp [fetch_transactions, hff]
      · simp only [fetch_transactions, if_neg hff]
        exact List.Pairwise.sublist (List.take_sublist 50 _) (hsorted c.docs)
    · intro c' hc' hff
      cases hc'
      simp [fetch_transactions, hff]

/-- C8 witness: the theorem applied to a concrete unavailable store and
to a concrete three-document store. -/
theorem fetch_transactions_bounded_sorted_witness :
    fetch_transactions (fun n : Nat => n) none = [] ∧
    (fetch_transactions (fun n : Nat => n)
        (some { docs := [1, 3, 2], insertFail := none,
                findFail := false })).length ≤ 50 :=
  ⟨(fetch_transactions_bounded_sorted (fun n : Nat => n) none).2.2.1 rfl,
   (fetch_transactions_bounded_sorted (fun n : Nat => n)
      (some { docs := [1, 3, 2], insertFail := none,
              findFail := false })).1⟩

/-- Helper: the retry loop makes at most as many attempts as iterations
remain. -/
theorem dbAttemptLoop_attempts_le (outs : Nat → Except Str Unit) :
    ∀ (rem i : Nat), (dbAttemptLoop outs i rem).2.1 ≤ rem := by
  intro rem
  induction rem with
  | zero => intro i; simp [dbAttemptLoop]
  | succ rem ih =>
    intro i
    cases houts : outs i with
    | ok u => simp [dbAttemptLoop, houts]
    | error e =>
      by_cases hg : timeoutIn e = true ∧ 0 < rem
      · simp only [dbAttemptLoop, houts, if_pos hg]
        have := ih (i + 1)
        omega
      · simp only [dbAttemptLoop, houts, if_neg hg]
        omega

/-- Helper: with at least one iteration left, at least one attempt is
made. -/
theorem dbAttemptLoop_attempts_pos (outs : Nat → Except Str Unit)
    (rem i : Nat) (hrem : 0 < rem) :
    0 < (dbAttemptLoop outs i rem).2.1 := by
  match rem, hrem with
  | Nat.succ rem, _ =>
    cases houts : outs i with
    | ok u => simp [dbAttemptLoop, houts]
    | error e =>
      by_cases hg : timeoutIn e = true ∧ 0 < rem
      · simp only [dbAttemptLoop, houts, if_pos hg]
        omega
      · simp only [dbAttemptLoop, houts, if_neg hg]
        omega

/-- Helper: the delays taken are one fixed 3-second sleep per retry. -/
theorem dbAttemptLoop_delays (outs : Nat → Except Str Unit) :
    ∀ (rem i : Nat), (dbAttemptLoop outs i rem).2.2 =
      List.replicate ((dbAttemptLoop outs i rem).2.1 - 1) 3 := by
  intro rem
  induction rem with
  | zero => intro i; simp [dbAttemptLoop]
  | succ rem ih =>
    intro i
    cases houts : outs i with
    | ok u => simp [dbAttemptLoop, houts]
    | error e =>
      by_cases hg : timeoutIn e = true ∧ 0 < rem
      · simp only [dbAttemptLoop, houts, if_pos hg]
        have hpos := dbAttemptLoop_attempts_pos outs rem (i + 1) hg.2
        obtain ⟨m, hm⟩ : ∃ m, (dbAttemptLoop outs (i + 1) rem).2.1 = m + 1 :=
          ⟨(dbAttemptLoop outs (i + 1) rem).2.1 - 1, by omega⟩
        rw [ih (i + 1), hm]
        simp [List.replicate_succ]
      · simp [dbAttemptLoop, houts, if_neg hg]

/-- Helper: an attempt after attempt `i + j` happens only when attempt
`i + j` failed with a transient-timeout signature. -/
theorem dbAttemptLoop_retry_only_on_timeout (outs : Nat → Except Str Unit) :
    ∀ (rem i j : Nat), j + 1 < (dbAttemptLoop outs i rem).2.1 →
      timeoutErrAt outs (i + j) := by
  intro rem
  induction rem with
  | zero => intro i j hj; simp [dbAttemptLoop] at hj
  | succ rem ih =>
    intro i j hj
    cases houts : outs i with
    | ok u => simp [dbAttemptLoop, houts] at hj
    | error e =>
      by_cases hg : timeoutIn e = true ∧ 0 < rem
      · simp only [dbAttemptLoop, houts, if_pos hg] at hj
        cases j with
        | zero => exact ⟨e, by simpa using houts, hg.1⟩
        | succ j' =>
          have hj' : j' + 1 < (dbAttemptLoop outs (i + 1) rem).2.1 := by
            omega
          have h := ih (i + 1) j' hj'
          have harith : i + (j' + 1) = (i + 1) + j' := by omega
          rw [harith]
          exact h
      · simp only [dbAttemptLoop, houts, if_neg hg] at hj
        omega

/-- Helper: the loop succeeds only through an attempt that returned
normally, every earlier attempt having failed with a timeout. -/
theorem dbAttemptLoop_success (outs : Nat → Except Str Unit) :
    ∀ (rem i : Nat), (dbAttemptLoop outs i rem).1 = some () →
      ∃ j, j < rem ∧ outs (i + j) = Except.ok () ∧
        ∀ k, k < j → timeoutErrAt outs (i + k) := by
  intro rem
  induction rem with
  | zero => intro i h; simp [dbAttemptLoop] at h
  | succ rem ih =>
    intro i h
    cases houts : outs i with
    | ok u =>
      cases u
      exact ⟨0, by omega, by simpa using houts,
        fun k hk => absurd hk (by omega)⟩
    | error e =>
      by_cases hg : timeoutIn e = true ∧ 0 < rem
      · simp only [dbAttemptLoop, houts, if_pos hg] at h
        obtain ⟨j, hj, hok, hprev⟩ := ih (i + 1) h
        refine ⟨j + 1, by omega, ?_, ?_⟩
        · have harith : i + (j + 1) = (i + 1) + j := by omega
          rw [harith]
          exact hok
        · intro k hk
          cases k with
          | zero => exact ⟨e, by simpa using houts, hg.1⟩
          | succ k' =>
            have harith : i + (k' + 1) = (i + 1) + k' := by omega
            rw [harith]
            exact hprev k' (by omega)
      · simp only [dbAttemptLoop, houts, if_neg hg] at h
        cases h

/-- C7: every provisioning call of `get_db_collection` makes at most
three attempts; a further attempt (always preceded by the fixed
3-second delay) happens only after a failure whose message contains
"timeout"; success comes only through an attempt that returned
normally with only timeout failures before it; and if all three
attempts fail the call yields the permanent store-unavailable result
`none`. -/
theorem get_db_collection_retry_discipline (secretsOk : Bool)
    (outs : Nat → Except Str Unit) :
    (get_db_collection secretsOk outs).2.1 ≤ 3 ∧
    (get_db_collection secretsOk outs).2.2 =
      List.replicate ((get_db_collection secretsOk outs).2.1 - 1) 3 ∧
    (∀ j, j + 1 < (get_db_collection secretsOk outs).2.1 →
      timeoutErrAt outs j) ∧
    ((get_db_collection secretsOk outs).1 = some () →
      ∃ j, j < 3 ∧ outs j = Except.ok () ∧
        ∀ k, k < j → timeoutErrAt outs k) ∧
    ((∀ j, j < 3 → ∃ e, outs j = Except.error e) →
      (get_db_collection secretsOk outs).1 = none) := by
  cases secretsOk with
  | false =>
    refine ⟨by simp [get_db_collection], by simp [get_db_collection],
      fun j hj => ?_, fun h => ?_, fun _ => by simp [get_db_collection]⟩
    · simp [get_db_collection] at hj
    · simp [get_db_collection] at h
  | true =>
    have hunfold : get_db_collection true outs = dbAttemptLoop outs 0 3 := rfl
    rw [hunfold]
    refine ⟨dbAttemptLoop_attempts_le outs 3 0,
      dbAttemptLoop_delays outs 3 0, fun j hj => ?_, fun h => ?_,
      fun hall => ?_⟩
    · have := dbAttemptLoop_retry_only_on_timeout outs 3 0 j hj
      simpa using this
    · obtain ⟨j, hj, hok, hprev⟩ := dbAttemptLoop_success outs 3 0 h
      exact ⟨j, hj, by simpa using hok,
        fun k hk => by simpa using hprev k hk⟩
    · match hres : (dbAttemptLoop outs 0 3).1 with
      | none => rfl
      | some u =>
        cases u
        obtain ⟨j, hj, hok, _⟩ := dbAttemptLoop_success outs 3 0 hres
        obtain ⟨e, he⟩ := hall j hj
        rw [show (0 : Nat) + j = j from by omega] at hok
        rw [hok] at he
        cases he

/-- C7 witness: a transient timeout on the first attempt followed by a
successful second attempt — two attempts made, one delay, a timeout
signature on attempt 0. -/
theorem get_db_collection_retry_discipline_witness :
    (get_db_collection true timeoutThenOk).2.1 ≤ 3 ∧
    timeoutErrAt timeoutThenOk 0 :=
  ⟨(get_db_collection_retry_discipline true timeoutThenOk).1,
   (get_db_collection_retry_discipline true timeoutThenOk).2.2.1 0
     (by decide)⟩

/-- C1 counterexample: a backend reply that parses fine but carries
`match_score = 150` is returned by `analyze_resume` verbatim — the
effective score is 150, an out-of-range value, not the degraded 0 the
claim promises ("never a clamped or out-of-range value"). -/
theorem analyze_resume_not_range_checked :
    (analyze_resume (some okBackend150) (lit "resume") (lit "jd")).1 =
      Json.obj [(lit "match_score", numJ 150)] ∧
    dictGet [(lit "match_score", numJ 150)] (lit "match_score") (numJ 0) =
      numJ 150 ∧
    ¬ (150 ≤ 100) :=
  ⟨by rfl, by rfl, by omega⟩

/-- C1 amended: `analyze_resume` never raises.  On a backend exception
or a reply whose fence-stripped text fails to parse as JSON it returns
the degraded dictionary with `match_score = 0` and one diagnostic tip;
with no configured model it returns score 0 and empty tips; a parsed
object lacking `match_score` yields 0 through the `.get` default at the
callers; but any successfully parsed value — including a non-numeric or
out-of-range `match_score` — is returned verbatim, with no validation
or clamping. -/
theorem analyze_resume_soft_fail (text jd : Str)
    (f : Str → Except Str Str) :
    analyze_resume none text jd = (Json.obj noKeyFields, [keyErrMsg]) ∧
    (∀ e, f (analyzePrompt text jd) = Except.error e →
      analyze_resume (some f) text jd =
        (Json.obj errFields, [lit "Analysis Error: " ++ e])) ∧
    (∀ t, f (analyzePrompt text jd) = Except.ok t →
      parseJson (cleanResp t) = none →
      analyze_resume (some f) text jd =
        (Json.obj errFields, [lit "Analysis Error: JSONDecodeError"])) ∧
    (∀ t j, f (analyzePrompt text jd) = Except.ok t →
      parseJson (cleanResp t) = some j →
      (analyze_resume (some f) text jd).1 = j) ∧
    (∀ fields, lookupKV fields (lit "match_score") = none →
      dictGet fields (lit "match_score") (numJ 0) = numJ 0) ∧
    dictGet errFields (lit "match_score") (numJ 0) = numJ 0 ∧
    dictGet noKeyFields (lit "match_score") (numJ 0) = numJ 0 := by
  refine ⟨rfl, fun e he => ?_, fun t ht hp => ?_, fun t j ht hp => ?_,
    fun fields hf => ?_, rfl, rfl⟩
  · simp [analyze_resume, he]
  · simp [analyze_resume, ht, hp]
  · simp [analyze_resume, ht, hp]
  · simp [dictGet, hf]

/-- C1 witness: the amended theorem applied to a backend that raises
and to an unparsable reply. -/
theorem analyze_resume_soft_fail_witness :
    analyze_resume (some boomBackend) (lit "resume") (lit "jd") =
      (Json.obj errFields, [lit "Analysis Error: " ++ lit "boom"]) ∧
    analyze_resume (some (fun _ => Except.ok (lit "not json")))
        (lit "resume") (lit "jd") =
      (Json.obj errFields, [lit "Analysis Error: JSONDecodeError"]) :=
  ⟨(analyze_resume_soft_fail (lit "resume") (lit "jd") boomBackend).2.1
      (lit "boom") (by rfl),
   (analyze_resume_soft_fail (lit "resume") (lit "jd")
      (fun _ => Except.ok (lit "not json"))).2.2.1
      (lit "not json") (by rfl) (by rfl)⟩

/-- C5: a backend failure in `optimize_resume` or
`generate_cover_letter` is not caught locally (the services return the
backend outcome verbatim); the run surfaces it as a fatal error, no
partial artifacts are published (`generated = none`), and the store is
left untouched — no `save` call is made. -/
theorem rewrite_failure_aborts_pipeline (f : Str → Except Str Str)
    (t : Str) (store : Option (Collection Tx)) (fileBytes : List Nat)
    (fn jd clLength now e : Str) (ht : t ≠ []) :
    optimize_resume (some f) t jd = (f (optPrompt t jd), []) ∧
    generate_cover_letter (some f) t jd clLength =
      (f (clPrompt t jd clLength), []) ∧
    (f (optPrompt t jd) = Except.error e →
      pipelineRun (some f) (some t) store fileBytes fn jd clLength now =
        { generated := none, store := store,
          msgs := (analyze_resume (some f) t jd).2, fatal := some e }) ∧
    (∀ opt, f (optPrompt t jd) = Except.ok opt →
      f (clPrompt t jd clLength) = Except.error e →
      pipelineRun (some f) (some t) store fileBytes fn jd clLength now =
        { generated := none, store := store,
          msgs := (analyze_resume (some f) t jd).2, fatal := some e }) := by
  refine ⟨rfl, rfl, fun he => ?_, fun opt hopt hcl => ?_⟩
  · simp [pipelineRun, optimize_resume, generate_cover_letter, he, ht]
  · simp [pipelineRun, optimize_resume, generate_cover_letter, hopt, hcl,
      ht]

/-- C5 witness: a raising backend on a concrete run — fatal outcome,
nothing published, store untouched. -/
theorem rewrite_failure_aborts_pipeline_witness :
    pipelineRun (some boomBackend) (some (lit "r")) (some emptyColl) []
        (lit "f") (lit "j") (lit "Medium") (lit "t") =
      { generated := none, store := some emptyColl,
        msgs := (analyze_resume (some boomBackend) (lit "r") (lit "j")).2,
        fatal := some (lit "boom") } :=
  (rewrite_failure_aborts_pipeline boomBackend (lit "r") (some emptyColl)
    [] (lit "f") (lit "j") (lit "Medium") (lit "t") (lit "boom")
    (by decide)).2.2.1 (by rfl)

/-- C3 counterexample: with no model credentials the run does NOT stop
before the stages — it executes end to end with degraded outputs and
persists a transaction with zero scores and empty generated texts,
refuting "no stage executes and a fatal pre-run error is reported". -/
theorem pipeline_runs_without_api_key :
    pipelineRun none (some (lit "resume text")) (some emptyColl) []
        (lit "cv.pdf") (lit "Job") (lit "Medium") (lit "2026-01-01") =
      { generated := some
          { original_stats := Json.obj noKeyFields,
            new_stats := Json.obj noKeyFields,
            optimized_resume := [], cover_letter := [] },
        store := some
          { docs := [buildTransaction (lit "2026-01-01") (lit "Job")
              (lit "cv.pdf") [] noKeyFields noKeyFields
              (lit "resume text") [] []],
            insertFail := none, findFail := false },
        msgs := [keyErrMsg, keyErrMsg, keyErrMsg, keyErrMsg],
        fatal := none } := by rfl

/-- C3 amended: missing model-backend credentials are not fatal and not
pre-run: each of the four model calls reports the key error and
soft-degrades (score-0 analyses, empty resume and cover letter), every
stage still executes, and a degraded transaction is saved. -/
theorem pipeline_degrades_without_api_key (t : Str) (c : Collection Tx)
    (fileBytes : List Nat) (fn jd clLength now : Str)
    (ht : t ≠ []) (hins : c.insertFail = none) :
    pipelineRun none (some t) (some c) fileBytes fn jd clLength now =
      { generated := some
          { original_stats := Json.obj noKeyFields,
            new_stats := Json.obj noKeyFields,
            optimized_resume := [], cover_letter := [] },
        store := some { c with docs := c.docs ++
          [buildTransaction now jd fn fileBytes noKeyFields noKeyFields
            t [] []] },
        msgs := [keyErrMsg, keyErrMsg, keyErrMsg, keyErrMsg],
        fatal := none } := by
  simp [pipelineRun, analyze_resume, optimize_resume,
    generate_cover_letter, save_transaction_to_db, ht, hins]

/-- C3 witness: the amended theorem evaluated on a concrete degraded
run. -/
theorem pipeline_degrades_without_api_key_witness :
    pipelineRun none (some (lit "r2")) (some emptyColl) [7]
        (lit "b.docx") (lit "JD2") (lit "Elaborate") (lit "t2") =
      { generated := some
          { original_stats := Json.obj noKeyFields,
            new_stats := Json.obj noKeyFields,
            optimized_resume := [], cover_letter := [] },
        store := some { emptyColl with docs := emptyColl.docs ++
          [buildTransaction (lit "t2") (lit "JD2") (lit "b.docx") [7]
            noKeyFields noKeyFields (lit "r2") [] []] },
        msgs := [keyErrMsg, keyErrMsg, keyErrMsg, keyErrMsg],
        fatal := none } :=
  pipeline_degrades_without_api_key (lit "r2") emptyColl [7]
    (lit "b.docx") (lit "JD2") (lit "Elaborate") (lit "t2")
    (by decide) rfl

/-- C4 counterexample: two identical successful runs, one with a
working store (the save succeeds and persists one document) and one
with an unavailable store (the save fails): the caller-visible session
result and the displayed messages are identical — the orchestrator
discards `save_transaction_to_db`'s return value and gives the caller
no signal about whether logging succeeded, refuting "separately
signals to the caller whether logging succeeded". -/
theorem pipeline_no_save_signal :
    (pipelineRun (some okBackend50) (some (lit "r")) (some emptyColl) []
        (lit "f") (lit "j") (lit "Medium") (lit "t")).generated =
      (pipelineRun (some okBackend50) (some (lit "r")) none []
        (lit "f") (lit "j") (lit "Medium") (lit "t")).generated ∧
    (pipelineRun (some okBackend50) (some (lit "r")) (some emptyColl) []
        (lit "f") (lit "j") (lit "Medium") (lit "t")).msgs = [] ∧
    (pipelineRun (some okBackend50) (some (lit "r")) none []
        (lit "f") (lit "j") (lit "Medium") (lit "t")).msgs = [] ∧
    Option.map (fun c : Collection Tx => c.docs.length)
      (pipelineRun (some okBackend50) (some (lit "r")) (some emptyColl)
        [] (lit "f") (lit "j") (lit "Medium") (lit "t")).store =
      some 1 ∧
    (pipelineRun (some okBackend50) (some (lit "r")) none []
        (lit "f") (lit "j") (lit "Medium") (lit "t")).store = none :=
  ⟨by rfl, by rfl, by rfl, by rfl, by rfl⟩

/-- C4 amended: when stages 1-5 succeed, the published result carries
exactly the rewrite outputs (byte-identical resume and cover letter)
and both analyses, whatever the store is — the session result is the
same with any store and with none — and the only save-dependent
output is `save_transaction_to_db`'s own message list (empty except on
an insert exception); the Boolean save result itself is discarded, so
logging success is not separately signalled. -/
theorem pipeline_result_independent_of_save (f : Str → Except Str Str)
    (t opt cl : Str) (store : Option (Collection Tx))
    (fileBytes : List Nat) (fn jd clLength now : Str)
    (origF newF : List (Str × Json))
    (ht : t ≠ [])
    (hopt : f (optPrompt t jd) = Except.ok opt)
    (hcl : f (clPrompt t jd clLength) = Except.ok cl)
    (hoa : (analyze_resume (some f) t jd).1 = Json.obj origF)
    (hna : (analyze_resume (some f) opt jd).1 = Json.obj newF) :
    (pipelineRun (some f) (some t) store fileBytes fn jd clLength
        now).generated =
      some { original_stats := Json.obj origF,
             new_stats := Json.obj newF,
             optimized_resume := opt, cover_letter := cl } ∧
    (pipelineRun (some f) (some t) store fileBytes fn jd clLength
        now).fatal = none ∧
    (pipelineRun (some f) (some t) store fileBytes fn jd clLength
        now).generated =
      (pipelineRun (some f) (some t) none fileBytes fn jd clLength
        now).generated ∧
    (pipelineRun (some f) (some t) store fileBytes fn jd clLength
        now).msgs =
      (analyze_resume (some f) t jd).2 ++
        ((analyze_resume (some f) opt jd).2 ++
          (save_transaction_to_db store
            (buildTransaction now jd fn fileBytes origF newF t opt
              cl)).2.2) := by
  have hoptu : optimize_resume (some f) t jd = (Except.ok opt, []) := by
    simp [optimize_resume, hopt]
  have hclu : generate_cover_letter (some f) t jd clLength =
      (Except.ok cl, []) := by
    simp [generate_cover_letter, hcl]
  refine ⟨?_, ?_, ?_, ?_⟩ <;>
    simp [pipelineRun, hoptu, hclu, hoa, hna, ht,
      save_transaction_to_db]

/-- C4 witness: the amended theorem evaluated on a concrete successful
run with a working backend. -/
theorem pipeline_result_independent_of_save_witness :
    (pipelineRun (some okBackend50) (some (lit "res")) (some emptyColl)
        [] (lit "f") (lit "jd") (lit "Medium") (lit "t")).generated =
      some { original_stats :=
               Json.obj [(lit "match_score", numJ 50)],
             new_stats := Json.obj [(lit "match_score", numJ 50)],
             optimized_resume := lit "\x7b\"match_score\": 50\x7d",
             cover_letter := lit "\x7b\"match_score\": 50\x7d" } :=
  (pipeline_result_independent_of_save okBackend50 (lit "res")
    (lit "\x7b\"match_score\": 50\x7d") (lit "\x7b\"match_score\": 50\x7d")
    (some emptyColl) [] (lit "f") (lit "jd") (lit "Medium") (lit "t")
    [(lit "match_score", numJ 50)] [(lit "match_score", numJ 50)]
    (by decide) (by rfl) (by rfl) (by rfl) (by rfl)).1

/-- C10: in the transaction a completed run persists, the stored
`critical_keywords` are the post-optimization analysis's
`missing_keywords`, the stored `improvements` are the original
analysis's `tips`, the transaction depends on the original analysis
only through its `match_score` and `tips` and on the re-score only
through its `match_score` and `missing_keywords` (so the original's
missing keywords and the re-score's tips are not persisted), and the
stored `job_title` is the first line of the job description truncated
to at most 50 characters. -/
theorem transaction_provenance (now jd fn : Str) (fileBytes : List Nat)
    (origF newF : List (Str × Json)) (t opt cl : Str)
    (f : Str → Except Str Str) (c : Collection Tx) (clLength : Str)
    (ht : t ≠ [])
    (hopt : f (optPrompt t jd) = Except.ok opt)
    (hcl : f (clPrompt t jd clLength) = Except.ok cl)
    (hoa : (analyze_resume (some f) t jd).1 = Json.obj origF)
    (hna : (analyze_resume (some f) opt jd).1 = Json.obj newF)
    (hins : c.insertFail = none) :
    (buildTransaction now jd fn fileBytes origF newF t opt
        cl).critical_keywords =
      dictGet newF (lit "missing_keywords") (Json.arr []) ∧
    (buildTransaction now jd fn fileBytes origF newF t opt
        cl).improvements = dictGet origF (lit "tips") (Json.arr []) ∧
    (buildTransaction now jd fn fileBytes origF newF t opt
        cl).job_title = (jd.takeWhile (fun ch => ch ≠ '\n')).take 50 ∧
    (buildTransaction now jd fn fileBytes origF newF t opt
        cl).job_title.length ≤ 50 ∧
    (∀ origF' newF',
      dictGet origF' (lit "match_score") (numJ 0) =
        dictGet origF (lit "match_score") (numJ 0) →
      dictGet origF' (lit "tips") (Json.arr []) =
        dictGet origF (lit "tips") (Json.arr []) →
      dictGet newF' (lit "match_score") (numJ 0) =
        dictGet newF (lit "match_score") (numJ 0) →
      dictGet newF' (lit "missing_keywords") (Json.arr []) =
        dictGet newF (lit "missing_keywords") (Json.arr []) →
      buildTransaction now jd fn fileBytes origF' newF' t opt cl =
        buildTransaction now jd fn fileBytes origF newF t opt cl) ∧
    (pipelineRun (some f) (some t) (some c) fileBytes fn jd clLength
        now).store =
      some { c with docs := c.docs ++
        [buildTransaction now jd fn fileBytes origF newF t opt cl] } := by
  have hoptu : optimize_resume (some f) t jd = (Except.ok opt, []) := by
    simp [optimize_resume, hopt]
  have hclu : generate_cover_letter (some f) t jd clLength =
      (Except.ok cl, []) := by
    simp [generate_cover_letter, hcl]
  refine ⟨rfl, rfl, rfl, ?_, fun origF' newF' h1 h2 h3 h4 => ?_, ?_⟩
  · simp only [buildTransaction]
    exact List.length_take_le _ _
  · simp [buildTransaction, h1, h2, h3, h4]
  · simp [pipelineRun, hoptu, hclu, hoa, hna, ht,
      save_transaction_to_db, hins]

/-- C10 witness: the theorem evaluated on a concrete completed run. -/
theorem transaction_provenance_witness :
    (buildTransaction (lit "t") (lit "Line one\nLine two") (lit "f") []
        [(lit "match_score", numJ 50)] [(lit "match_score", numJ 50)]
        (lit "res") (lit "\x7b\"match_score\": 50\x7d")
        (lit "\x7b\"match_score\": 50\x7d")).job_title =
      ((lit "Line one\nLine two").takeWhile (fun ch => ch ≠ '\n')).take
        50 :=
  (transaction_provenance (lit "t") (lit "Line one\nLine two") (lit "f")
    [] [(lit "match_score", numJ 50)] [(lit "match_score", numJ 50)]
    (lit "res") (lit "\x7b\"match_score\": 50\x7d")
    (lit "\x7b\"match_score\": 50\x7d") okBackend50 emptyColl
    (lit "Medium") (by decide) (by rfl) (by rfl) (by rfl) (by rfl)
    rfl).2.2.1

end ResumeSpec
